import Mathlib

/-!
Verification of the HTTP request execution engine (Go sources under
internal/proxy and internal/infra) against its natural-language
specification.  The Go code is shallowly embedded: Go strings become Lean
Strings (Go `len` becomes `String.utf8ByteSize`), byte slices become
`List Nat`, Go maps with string keys become association lists, and the
standard-library decoders that the engine merely calls (gzip / deflate /
brotli, the DNS resolver, the IP literal parser) are threaded as explicit
function parameters.  `net/url.Parse` is modelled concretely after the Go
standard library, restricted to the behaviours the engine exercises
(percent-escape normalisation and userinfo validation are not modelled;
error message texts are abbreviated).  Go string primitives are
re-implemented on character lists so that all definitions evaluate inside
the kernel.
-/

deriving instance DecidableEq for Except

/-- Bytes of a Go byte slice. -/
abbrev Bytes := List Nat

/-- Boolean infix test on character lists. -/
def listIsInfixOf (needle : List Char) : List Char → Bool
  | [] => needle.isEmpty
  | c :: rest => needle.isPrefixOf (c :: rest) || listIsInfixOf needle rest

/-- Go `strings.Contains s sub`. -/
def goContains (s sub : String) : Bool :=
  listIsInfixOf sub.toList s.toList

/-- Go `strings.HasPrefix s pre`. -/
def goHasPrefix (s pre : String) : Bool :=
  pre.toList.isPrefixOf s.toList

/-- Go `strings.HasSuffix s suf`. -/
def goHasSuffix (s suf : String) : Bool :=
  suf.toList.reverse.isPrefixOf s.toList.reverse

/-- ASCII lower-casing of one character (as Go `strings.ToLower` acts on
the ASCII range; the engine only lower-cases header names, header values
and URL schemes). -/
def charToLower (c : Char) : Char :=
  if 'A' ≤ c ∧ c ≤ 'Z' then Char.ofNat (c.toNat + 32) else c

/-- Go `strings.ToLower` (ASCII range). -/
def goToLower (s : String) : String :=
  ⟨s.toList.map charToLower⟩

/-- Go `strings.Cut s sep` for a single-character separator. -/
def cutList (sep : Char) : List Char → Option (List Char × List Char)
  | [] => none
  | c :: rest =>
    if c = sep then some ([], rest)
    else (cutList sep rest).map (fun p => (c :: p.1, p.2))

/-- Go `strings.Cut` on strings, single-character separator:
before, after, found. -/
def goCut (s : String) (sep : Char) : String × String × Bool :=
  match cutList sep s.toList with
  | some (a, b) => (⟨a⟩, ⟨b⟩, true)
  | none => (s, "", false)

/-- Index of the last occurrence of `c`, Go `strings.LastIndexByte`. -/
def lastIndexOf (c : Char) : List Char → Option Nat
  | [] => none
  | x :: rest =>
    match lastIndexOf c rest with
    | some i => some (i + 1)
    | none => if x = c then some 0 else none

/-- Go `net/url.stringContainsCTLByte`. -/
def stringContainsCTLByte (s : String) : Bool :=
  s.toList.any (fun c => c.toNat < 0x20 || c.toNat == 0x7f)

/-- Go `net/url.validOptionalPort`: empty, or a colon followed by digits. -/
def validOptionalPort (p : List Char) : Bool :=
  match p with
  | [] => true
  | c :: rest => c == ':' && rest.all (fun d => decide ('0' ≤ d) && decide (d ≤ '9'))

/-- Characters Go accepts unescaped in a host (net/url shouldEscape with
the host mode); 39 is the apostrophe. -/
def hostAllowedChar (c : Char) : Bool :=
  c.isAlphanum || "-._~!$&()*+,;=:[]<>\"%".toList.contains c || c.toNat == 39

/-- Go `net/url.getScheme` scanning loop: accumulates scheme characters
until a colon; a non-scheme character means there is no scheme. -/
def getSchemeAux (first : Bool) (acc : List Char) :
    List Char → Except String (Option (List Char × List Char))
  | [] => .ok none
  | c :: rest =>
    if c.isAlpha then getSchemeAux false (acc ++ [c]) rest
    else if c.isDigit || c == '+' || c == '-' || c == '.' then
      if first then .ok none else getSchemeAux false (acc ++ [c]) rest
    else if c = ':' then
      if first then .error "missing protocol scheme"
      else .ok (some (acc, rest))
    else .ok none

/-- Go `net/url.getScheme`. -/
def getScheme (s : String) : Except String (String × String) :=
  match getSchemeAux true [] s.toList with
  | .error e => .error e
  | .ok none => .ok ("", s)
  | .ok (some (sch, rest)) => .ok (⟨sch⟩, ⟨rest⟩)

/-- Go `net/url.parseHost` (bracket form, optional port, character check). -/
def parseHost (host : String) : Except String String :=
  let cs := host.toList
  if !(cs.all hostAllowedChar) then .error "invalid character in host name"
  else if goHasPrefix host "[" then
    match lastIndexOf ']' cs with
    | none => .error "missing right bracket in host"
    | some i =>
      if validOptionalPort (cs.drop (i + 1)) then .ok host
      else .error "invalid port after host"
  else
    match lastIndexOf ':' cs with
    | none => .ok host
    | some i =>
      if validOptionalPort (cs.drop i) then .ok host
      else .error "invalid port after host"

/-- Go `net/url.parseAuthority`: strip userinfo at the last `@`, then parse
the host (userinfo validation is not modelled). -/
def parseAuthority (authority : String) : Except String String :=
  let cs := authority.toList
  match lastIndexOf '@' cs with
  | none => parseHost authority
  | some i => parseHost ⟨cs.drop (i + 1)⟩

/-- The fields of Go `net/url.URL` the engine reads (`opq` is `Opaque`). -/
structure GoURL where
  scheme : String := ""
  opq : String := ""
  host : String := ""
  path : String := ""
  rawQuery : String := ""
  forceQuery : Bool := false
deriving DecidableEq

/-- Go `net/url.parse` on a fragment-stripped URL (viaRequest = false). -/
def parseNoFrag (rawURL : String) : Except String GoURL :=
  if stringContainsCTLByte rawURL then .error "invalid control character in URL"
  else if rawURL = "*" then .ok { path := "*" }
  else
    match getScheme rawURL with
    | .error e => .error e
    | .ok (schemeRaw, rest0) =>
      let scheme := goToLower schemeRaw
      let (rest, rawQuery, forceQuery) :=
        if goHasSuffix rest0 "?" &&
            !(goContains (⟨rest0.toList.dropLast⟩ : String) "?") then
          ((⟨rest0.toList.dropLast⟩ : String), "", true)
        else
          let c := goCut rest0 '?'
          (c.1, c.2.1, false)
      if !(goHasPrefix rest "/") && scheme ≠ "" then
        .ok { scheme := scheme, opq := rest, rawQuery := rawQuery,
              forceQuery := forceQuery }
      else if scheme = "" && !(goHasPrefix rest "/") &&
          goContains (goCut rest '/').1 ":" then
        .error "first path segment in URL cannot contain colon"
      else if goHasPrefix rest "//" && (scheme ≠ "" || !(goHasPrefix rest "///")) then
        let after := (rest.toList.drop 2)
        let (authority, pathRest) :=
          match after.findIdx? (fun c => c = '/') with
          | some i => ((⟨after.take i⟩ : String), (⟨after.drop i⟩ : String))
          | none => ((⟨after⟩ : String), "")
        match parseAuthority authority with
        | .error e => .error e
        | .ok host =>
          .ok { scheme := scheme, host := host, path := pathRest,
                rawQuery := rawQuery, forceQuery := forceQuery }
      else
        .ok { scheme := scheme, path := rest, rawQuery := rawQuery,
              forceQuery := forceQuery }

/-- Go `net/url.Parse`: cut the fragment, then parse the rest. -/
def urlParse (rawURL : String) : Except String GoURL :=
  parseNoFrag (goCut rawURL '#').1

/-- Go `net/url.splitHostPort` (used by `Hostname` and `Port`). -/
def splitHostPort (hostPort : String) : String × String :=
  let cs := hostPort.toList
  let hp : String × String :=
    match lastIndexOf ':' cs with
    | some i =>
      if validOptionalPort (cs.drop i) then (⟨cs.take i⟩, ⟨cs.drop (i + 1)⟩)
      else (hostPort, "")
    | none => (hostPort, "")
  if goHasPrefix hp.1 "[" && goHasSuffix hp.1 "]" then
    (⟨(hp.1.toList.drop 1).dropLast⟩, hp.2)
  else hp

/-- Go `(*url.URL).Hostname`. -/
def GoURL.hostname (u : GoURL) : String := (splitHostPort u.host).1

/-- Go `(*url.URL).Port`. -/
def GoURL.portOf (u : GoURL) : String := (splitHostPort u.host).2

/-- Go `(*url.URL).RequestURI` (escaping not modelled). -/
def GoURL.requestURI (u : GoURL) : String :=
  let result :=
    if u.opq = "" then (if u.path = "" then "/" else u.path)
    else if goHasPrefix u.opq "//" then u.scheme ++ ":" ++ u.opq
    else u.opq
  if u.forceQuery || u.rawQuery ≠ "" then result ++ "?" ++ u.rawQuery
  else result

example : urlParse "ftp://example.com/" =
    .ok { scheme := "ftp", host := "example.com", path := "/" } := by decide

example : (urlParse "http://bad:port/x").isOk = false := by decide

example : urlParse "http://example.com:8080/a?b=1" =
    .ok { scheme := "http", host := "example.com:8080", path := "/a",
          rawQuery := "b=1" } := by decide

example : (urlParse "http://[::1]:8080/x").map GoURL.hostname = .ok "::1" := by decide

example : (urlParse "HTTP://ExAmple.com").map GoURL.scheme = .ok "http" := by decide

example : (urlParse "http://example.com").map GoURL.requestURI = .ok "/" := by decide

/-- internal/proxy executor.go: `requestContext` tracks request state
during the redirect chain. -/
structure RequestContext where
  url : String
  host : String
  port : String
  path : String
  isHTTPS : Bool
deriving DecidableEq

/-- Go `net.JoinHostPort`: brackets the host when it contains a colon. -/
def joinHostPort (host port : String) : String :=
  if host.toList.contains ':' then "[" ++ host ++ "]:" ++ port
  else host ++ ":" ++ port

/-- executor.go `newRequestContext`. -/
def newRequestContext (rawURL : String) : Except String RequestContext :=
  match urlParse rawURL with
  | .error e => .error ("invalid URL: " ++ e)
  | .ok parsed =>
    if parsed.host = "" then .error "URL has no host"
    else
      let isHTTPS := parsed.scheme = "https"
      let host := parsed.hostname
      let port0 := parsed.portOf
      let port := if port0 = "" then (if isHTTPS then "443" else "80") else port0
      let path0 := parsed.requestURI
      let path := if path0 = "" then "/" else path0
      .ok { url := rawURL, host := host, port := port, path := path,
            isHTTPS := isHTTPS }

/-- executor.go `(*requestContext).updateFromRedirect`: returns the updated
context together with the next URL the method returns. -/
def updateFromRedirect (c : RequestContext) (location : String) :
    RequestContext × String :=
  if goHasPrefix location "http://" || goHasPrefix location "https://" then
    match urlParse location with
    | .error _ => ({ c with url := location }, location)
    | .ok parsed =>
      let isHTTPS := parsed.scheme = "https"
      let host := parsed.hostname
      let port0 := parsed.portOf
      let port := if port0 = "" then (if isHTTPS then "443" else "80") else port0
      let path0 := parsed.requestURI
      let path := if path0 = "" then "/" else path0
      let defaultPort := if isHTTPS then "443" else "80"
      let scheme := if isHTTPS then "https" else "http"
      let hostWithPort := if port ≠ defaultPort then joinHostPort host port else host
      let nextURL := scheme ++ "://" ++ hostWithPort ++ path
      ({ url := nextURL, host := host, port := port, path := path,
         isHTTPS := isHTTPS }, nextURL)
  else
    let scheme := if c.isHTTPS then "https" else "http"
    let defaultPort := if c.isHTTPS then "443" else "80"
    let hostWithPort := if c.port ≠ defaultPort then joinHostPort c.host c.port
                        else c.host
    let path := if goHasPrefix location "/" then location else "/" ++ location
    let nextURL := scheme ++ "://" ++ hostWithPort ++ path
    ({ c with url := nextURL, path := path }, nextURL)

/-- executor.go `(*requestContext).addr`. -/
def RequestContext.addr (c : RequestContext) : String :=
  joinHostPort c.host c.port

example : newRequestContext "http://example.com" =
    .ok { url := "http://example.com", host := "example.com", port := "80",
          path := "/", isHTTPS := false } := by decide

example : newRequestContext "ftp://example.com/" =
    .ok { url := "ftp://example.com/", host := "example.com", port := "80",
          path := "/", isHTTPS := false } := by decide

example : (newRequestContext "/nohost").isOk = false := by decide

/-- A sample context for the plain-HTTP origin `http://a.test/`. -/
def ctxA : RequestContext where
  url := "http://a.test/"
  host := "a.test"
  port := "80"
  path := "/"
  isHTTPS := false

/-- A sample context for an origin on a non-default port. -/
def ctxB : RequestContext where
  url := "http://a.test:8080/x"
  host := "a.test"
  port := "8080"
  path := "/x"
  isHTTPS := false

example : (updateFromRedirect ctxA "https://b.test/c").2 =
    "https://b.test/c" := by decide

example : (updateFromRedirect ctxA "https://b.test:444/c").2 =
    "https://b.test:444/c" := by decide

example : (updateFromRedirect ctxB "next").2 =
    "http://a.test:8080/next" := by decide

/-- Result of a decompression (infra DecompressResult). -/
structure DecompressResult where
  data : Bytes
  compressedSize : Nat
  decompressedSize : Nat
deriving DecidableEq

/-- The three stream decoders the decompressor delegates to
(compress/gzip, compress/flate, andybalholm/brotli), threaded as
parameters: each maps a raw byte buffer to its decoded bytes or a
decode error. -/
structure Codec where
  gunzip : Bytes → Except String Bytes
  inflate : Bytes → Except String Bytes
  unbrotli : Bytes → Except String Bytes

/-- infra `decompressGzip`. -/
def decompressGzip (codec : Codec) (data : Bytes) : Except String DecompressResult :=
  match codec.gunzip data with
  | .error e => .error e
  | .ok d => .ok { data := d, compressedSize := data.length,
                   decompressedSize := d.length }

/-- infra `decompressDeflate`. -/
def decompressDeflate (codec : Codec) (data : Bytes) : Except String DecompressResult :=
  match codec.inflate data with
  | .error e => .error e
  | .ok d => .ok { data := d, compressedSize := data.length,
                   decompressedSize := d.length }

/-- infra `decompressBrotli`. -/
def decompressBrotli (codec : Codec) (data : Bytes) : Except String DecompressResult :=
  match codec.unbrotli data with
  | .error e => .error e
  | .ok d => .ok { data := d, compressedSize := data.length,
                   decompressedSize := d.length }

/-- infra `Decompress`: switch on the content-encoding label. -/
def Decompress (codec : Codec) (data : Bytes) (encoding : String) :
    Except String DecompressResult :=
  if encoding = "gzip" then decompressGzip codec data
  else if encoding = "deflate" then decompressDeflate codec data
  else if encoding = "br" then decompressBrotli codec data
  else .ok { data := data, compressedSize := data.length,
             decompressedSize := data.length }

/-- infra/dns.go DNSResult; an IP address is abstract (`α`). -/
structure DNSResult (α : Type) where
  ips : List α
  durationMs : Nat
deriving DecidableEq

/-- infra `ResolveDNS`.  `parseIP` is Go `net.ParseIP` (some on an IP
literal), `lookupIP` the platform resolver, `elapsedMs` the wall-clock
the lookup branch would measure. -/
def ResolveDNS {α : Type} (parseIP : String → Option α)
    (lookupIP : String → Except String (List α)) (elapsedMs : Nat)
    (host : String) : Except String (DNSResult α) :=
  match parseIP host with
  | some ip => .ok { ips := [ip], durationMs := 0 }
  | none =>
    match lookupIP host with
    | .error e => .error e
    | .ok ips =>
      if ips.length = 0 then .error ("no addresses found " ++ host)
      else .ok { ips := ips, durationMs := elapsedMs }

/-- The base64 standard alphabet (encoding/base64 StdEncoding). -/
def base64Alphabet : List Char :=
  "ABCDEFGHIJKLMNOPQRSTUVWXYZabcdefghijklmnopqrstuvwxyz0123456789+/".toList

/-- One base64 output character for a 6-bit group. -/
def base64Char (n : Nat) : Char := base64Alphabet.getD n 'A'

/-- encoding/base64 StdEncoding.EncodeToString on byte groups of three,
with `=` padding. -/
def base64Encode : Bytes → String
  | [] => ""
  | [b0] =>
    ⟨[base64Char (b0 / 4), base64Char (b0 % 4 * 16), '=', '=']⟩
  | [b0, b1] =>
    ⟨[base64Char (b0 / 4), base64Char (b0 % 4 * 16 + b1 / 16),
      base64Char (b1 % 16 * 4), '=']⟩
  | b0 :: b1 :: b2 :: rest =>
    (⟨[base64Char (b0 / 4), base64Char (b0 % 4 * 16 + b1 / 16),
       base64Char (b1 % 16 * 4 + b2 / 64), base64Char (b2 % 64)]⟩ : String)
      ++ base64Encode rest

example : base64Encode [0x89, 0x50, 0x4E, 0x47, 0x0D, 0x0A, 0x1A, 0x0A] =
    "iVBORw0KGgo=" := by decide

example : Decompress ⟨fun _ => .error "bad", fun _ => .error "bad",
    fun _ => .error "bad"⟩ [1, 2, 3] "identity" =
      .ok ⟨[1, 2, 3], 3, 3⟩ := by decide

/-- A header map (Go `map[string]string`) as an association list; absent
keys read as the empty string, as Go map indexing does. -/
abbrev HeaderMap := List (String × String)

/-- Go map indexing with the zero-value default. -/
def mapGetD (m : HeaderMap) (k : String) : String :=
  (m.lookup k).getD ""

/-- types.go `RedirectHop`. -/
structure RedirectHop where
  url : String
  status : Nat
  duration : Nat
  headers : HeaderMap
  message : Option String
deriving DecidableEq

/-- types.go `SizeBreakdown`; float64 ratios are modelled exactly as
rationals. -/
structure SizeBreakdown where
  headers : Nat
  body : Nat
  total : Nat
  compressed : Option Nat
  uncompressed : Option Nat
  encoding : Option String
  compressionRatio : Option ℚ
deriving DecidableEq

/-- types.go `ResponseData` (the fields the specification constrains;
timing and TLS introspection, which sample wall clocks and live
handshake state, are not carried).  The body is kept as the byte
sequence a Go string holds. -/
structure ResponseData where
  status : Nat
  statusText : String
  headers : HeaderMap
  requestHeaders : HeaderMap
  body : Bytes
  bodyBase64 : Option String
  isBinary : Bool
  size : Nat
  url : String
  redirected : Bool
  redirectChain : Option (List RedirectHop)
  sizeBreakdown : SizeBreakdown
  serverIP : Option String
  protocol : String
  fromCache : Bool
  resourceType : String
  requestBodySize : Option Nat
  connection : Option String
  serverSoftware : Option String
  hostname : Option String
  port : Option String
  resolvedIPs : List String
deriving DecidableEq

/-- types.go `ErrorData`. -/
structure ErrorData where
  message : String
  code : String
deriving DecidableEq

/-- types.go `ProxyResponse`. -/
structure ProxyResponse where
  success : Bool
  data : Option ResponseData
  error : Option ErrorData
deriving DecidableEq

/-- types.go `NewSuccessResponse`. -/
def NewSuccessResponse (data : ResponseData) : ProxyResponse :=
  { success := true, data := some data, error := none }

/-- types.go `NewErrorResponse`. -/
def NewErrorResponse (message code : String) : ProxyResponse :=
  { success := false, data := none, error := some ⟨message, code⟩ }

/-- types.go `ProxyRequest` (the timeout only feeds wall-clock deadlines
and is not carried). -/
structure ProxyRequest where
  method : String
  url : String
  headers : HeaderMap
  body : Option Bytes
deriving DecidableEq

/-- response_builder.go: the text-like content types. -/
def textTypes : List String :=
  ["text/", "application/json", "application/xml", "application/javascript",
   "application/x-javascript", "application/ecmascript",
   "application/x-www-form-urlencoded", "+json", "+xml"]

/-- response_builder.go `isBinaryContent`: empty means text; otherwise
binary unless the lower-cased type contains a text-like marker. -/
def isBinaryContent (contentType : String) : Bool :=
  if contentType = "" then false
  else
    let ct := goToLower contentType
    !(textTypes.any (fun t => goContains ct t))

/-- response_builder.go `responseBuildParams` (timing and TLS omitted as
in `ResponseData`). -/
structure ResponseBuildParams where
  status : Nat
  headers : HeaderMap
  bodyBytes : Bytes
  finalURL : String
  redirectChain : List RedirectHop
  httpVersion : String
  serverIP : String
  requestHeaders : HeaderMap
  requestBodySize : Option Nat
  hostname : String
  port : String
  resolvedIPs : List String
deriving DecidableEq

/-- response_builder.go `buildResponse`, success path: the record built
once decompression has succeeded with `decompressResult`.  `statusTextGet`
is the pkg/statustext reason-phrase table (its source is outside the
embedded tree; only its values for the statuses used reach the output). -/
def buildResponseData (statusTextGet : Nat → String)
    (params : ResponseBuildParams) (decompressResult : DecompressResult) :
    ResponseData :=
  let contentType := mapGetD params.headers "content-type"
  let contentEncoding := mapGetD params.headers "content-encoding"
  let isBinary := isBinaryContent contentType
  let compressedSize := params.bodyBytes.length
  let decompressed := decompressResult.data
  let bodySize := decompressed.length
  let body : Bytes := if isBinary then [] else decompressed
  let bodyBase64 : Option String :=
    if isBinary then some (base64Encode decompressed) else none
  let statusLine := params.httpVersion ++ " " ++ toString params.status ++
    " " ++ statusTextGet params.status
  let headerSize := params.headers.foldl
    (fun acc kv => acc + kv.1.utf8ByteSize + 2 + kv.2.utf8ByteSize + 2)
    (statusLine.utf8ByteSize + 2)
  let hasRatio := contentEncoding ≠ "" ∧ bodySize > 0
  let compressionRatio : Option ℚ :=
    if hasRatio then some ((compressedSize : ℚ) / (bodySize : ℚ)) else none
  let compressed : Option Nat := if hasRatio then some compressedSize else none
  let uncompressed : Option Nat := if hasRatio then some bodySize else none
  let encoding : Option String := if hasRatio then some contentEncoding else none
  let sizeBreakdown : SizeBreakdown :=
    { headers := headerSize, body := bodySize, total := headerSize + bodySize,
      compressed := compressed, uncompressed := uncompressed,
      encoding := encoding, compressionRatio := compressionRatio }
  let serverSoftware := mapGetD params.headers "server"
  let connection := mapGetD params.headers "connection"
  { status := params.status
    statusText := statusTextGet params.status
    headers := params.headers
    requestHeaders := params.requestHeaders
    body := body
    bodyBase64 := bodyBase64
    isBinary := isBinary
    size := bodySize
    url := params.finalURL
    redirected := decide (params.redirectChain.length > 0)
    redirectChain := if params.redirectChain.length > 0 then
        some params.redirectChain else none
    sizeBreakdown := sizeBreakdown
    serverIP := if params.serverIP ≠ "" then some params.serverIP else none
    protocol := params.httpVersion
    fromCache := false
    resourceType := "fetch"
    requestBodySize := params.requestBodySize
    connection := if connection ≠ "" then some connection else none
    serverSoftware := if serverSoftware ≠ "" then some serverSoftware else none
    hostname := if params.hostname ≠ "" then some params.hostname else none
    port := if params.port ≠ "" then some params.port else none
    resolvedIPs := params.resolvedIPs }

/-- response_builder.go `buildResponse`: decompress, then assemble. -/
def buildResponse (codec : Codec) (statusTextGet : Nat → String)
    (params : ResponseBuildParams) : ProxyResponse :=
  match Decompress codec params.bodyBytes (mapGetD params.headers "content-encoding") with
  | .error e => NewErrorResponse ("Decompression failed: " ++ e) "DECOMPRESSION_ERROR"
  | .ok decompressResult =>
    NewSuccessResponse (buildResponseData statusTextGet params decompressResult)

/-- executor.go `MaxRedirects`. -/
def MaxRedirects : Nat := 20

/-- One network exchange as the transport reports it: status, the Go
http.Header (canonical keys, value lists), the fully read body, the
protocol string, and the wall-clock the hop took. -/
structure NetResponse where
  statusCode : Nat
  headers : List (String × List String)
  body : Bytes
  proto : String
  hopDuration : Nat
deriving DecidableEq

/-- Outcome of one loop iteration's network work: a response, a
`client.Do` failure, or a body-read failure. -/
inductive NetOutcome where
  | success (r : NetResponse)
  | doError (msg : String)
  | bodyError (msg : String)
deriving DecidableEq

/-- executor.go header-normalisation loop: lower-case the keys, keep the
first value of each (canonical keys lower-case injectively, so Go's map
iteration order is immaterial). -/
def lowerHeaders : List (String × List String) → HeaderMap
  | [] => []
  | (k, v :: _) :: rest => (goToLower k, v) :: lowerHeaders rest
  | (_, []) :: rest => lowerHeaders rest

/-- Go `http.Header.Get` for a canonical key: first value or empty. -/
def headerGetFirst (hs : List (String × List String)) (k : String) : String :=
  match hs.lookup k with
  | some (v :: _) => v
  | _ => ""

/-- Per-execution data the redirect loop carries unchanged. -/
structure ExecEnv where
  codec : Codec
  statusTextGet : Nat → String
  requestHeaders : HeaderMap
  requestBodySize : Option Nat
  serverIP : String
  resolvedIPs : List String

/-- executor.go `ExecuteRequest` main loop, driven by the list of network
outcomes the successive exchanges produce (an empty list behaves as a
failed dial).  `http.NewRequest` re-parses the context URL and fails with
REQUEST_BUILD_ERROR; its method-token check is not modelled (the method
is constant across the loop, so it cannot fail midway when the first hop
succeeded). -/
def execLoop (env : ExecEnv) :
    RequestContext → List RedirectHop → List NetOutcome → ProxyResponse
  | _, _, [] =>
    NewErrorResponse "Request failed: no further response" "REQUEST_FAILED"
  | ctx, chain, outcome :: rest =>
    match urlParse ctx.url with
    | .error e =>
      NewErrorResponse ("Failed to create request: " ++ e) "REQUEST_BUILD_ERROR"
    | .ok _ =>
      match outcome with
      | .doError msg =>
        NewErrorResponse ("Request failed: " ++ msg) "REQUEST_FAILED"
      | .bodyError msg =>
        NewErrorResponse ("Failed to read body: " ++ msg) "BODY_READ_ERROR"
      | .success r =>
        let headers := lowerHeaders r.headers
        let location := headerGetFirst r.headers "Location"
        if 300 ≤ r.statusCode ∧ r.statusCode < 400 ∧ location ≠ "" then
          let currentURL := ctx.url
          let upd := updateFromRedirect ctx location
          let chain2 := chain ++
            [{ url := currentURL, status := r.statusCode,
               duration := r.hopDuration, headers := headers,
               message := some ("Redirect to: " ++ upd.2) }]
          if chain2.length ≥ MaxRedirects then
            NewErrorResponse "Too many redirects" "TOO_MANY_REDIRECTS"
          else
            execLoop env upd.1 chain2 rest
        else
          buildResponse env.codec env.statusTextGet
            { status := r.statusCode
              headers := headers
              bodyBytes := r.body
              finalURL := ctx.url
              redirectChain := chain
              httpVersion := r.proto
              serverIP := env.serverIP
              requestHeaders := env.requestHeaders
              requestBodySize := env.requestBodySize
              hostname := ctx.host
              port := ctx.port
              resolvedIPs := env.resolvedIPs }

/-- executor.go `ExecuteRequest`: context construction, DNS resolution,
then the redirect loop.  IP addresses are carried in their string form
(executor.go stringifies them immediately). -/
def ExecuteRequest (codec : Codec) (statusTextGet : Nat → String)
    (parseIP : String → Option String)
    (lookupIP : String → Except String (List String)) (dnsElapsedMs : Nat)
    (request : ProxyRequest) (net : List NetOutcome) : ProxyResponse :=
  match newRequestContext request.url with
  | .error e => NewErrorResponse e "INVALID_URL"
  | .ok ctx =>
    match ResolveDNS parseIP lookupIP dnsElapsedMs ctx.host with
    | .error e => NewErrorResponse ("DNS lookup failed: " ++ e) "DNS_ERROR"
    | .ok dnsResult =>
      let resolvedIPs := dnsResult.ips
      let serverIP := match resolvedIPs with | ip :: _ => ip | [] => ""
      execLoop
        { codec := codec, statusTextGet := statusTextGet,
          requestHeaders := request.headers,
          requestBodySize := request.body.map List.length,
          serverIP := serverIP, resolvedIPs := resolvedIPs }
        ctx [] net

/-- The error code of a proxy response, when it is an error. -/
def errCode (r : ProxyResponse) : Option String :=
  r.error.map ErrorData.code

/-- Gzip of the empty byte sequence (header, empty deflate block, CRC32
and length trailer): decodes to no bytes. -/
def gzipEmptyBytes : Bytes :=
  [0x1f, 0x8b, 0x08, 0x00, 0x00, 0x00, 0x00, 0x00, 0x00, 0xff,
   0x03, 0x00, 0x00, 0x00, 0x00, 0x00, 0x00, 0x00, 0x00, 0x00]

/-- Gzip of the five bytes `hello` (header with OS byte 3, deflate data,
CRC32 0x3610A686, length 5). -/
def gzipHelloBytes : Bytes :=
  [0x1f, 0x8b, 0x08, 0x00, 0x00, 0x00, 0x00, 0x00, 0x00, 0x03,
   0xcb, 0x48, 0xcd, 0xc9, 0xc9, 0x07, 0x00,
   0x86, 0xa6, 0x10, 0x36, 0x05, 0x00, 0x00, 0x00]

/-- A concrete codec knowing two gzip streams: the gzip encodings of the
empty byte sequence and of `hello`. -/
def sampleCodec : Codec where
  gunzip := fun d =>
    if d = gzipEmptyBytes then .ok []
    else if d = gzipHelloBytes then .ok [104, 101, 108, 108, 111]
    else .error "unexpected EOF"
  inflate := fun _ => .error "unexpected EOF"
  unbrotli := fun _ => .error "unexpected EOF"

/-- A reason-phrase table fragment (pkg/statustext values for the codes
the concrete executions use). -/
def sampleStatusText (code : Nat) : String :=
  if code = 200 then "OK" else if code = 302 then "Found" else ""

/-- A parseIP that recognises no literal: every sample host is a name. -/
def noneParseIP : String → Option String := fun _ => none

/-- A resolver returning one address for any name. -/
def sampleLookupIP : String → Except String (List String) :=
  fun _ => .ok ["93.184.216.34"]

/-- A 302 response redirecting to `/l`. -/
def redirect302 : NetResponse where
  statusCode := 302
  headers := [("Location", ["/l"])]
  body := []
  proto := "HTTP/1.1"
  hopDuration := 3

/-- A plain 200 text response with body `hello`. -/
def ok200 : NetResponse where
  statusCode := 200
  headers := [("Content-Type", ["text/plain"])]
  body := [104, 101, 108, 108, 111]
  proto := "HTTP/1.1"
  hopDuration := 5

/-- A 200 response with no headers and no body (for the long redirect
execution). -/
def ok200bare : NetResponse where
  statusCode := 200
  headers := []
  body := []
  proto := "HTTP/1.1"
  hopDuration := 5

/-- The request the concrete executions issue. -/
def sampleRequest : ProxyRequest where
  method := "GET"
  url := "http://e.co/"
  headers := []
  body := none

/-- The request with an unsupported scheme. -/
def ftpRequest : ProxyRequest where
  method := "GET"
  url := "ftp://example.com/"
  headers := []
  body := none


/-! ### Helper lemmas -/

theorem listIsInfixOf_iff (n h : List Char) :
    listIsInfixOf n h = true ↔ n <:+: h := by
  induction h with
  | nil => simp [listIsInfixOf]
  | cons c rest ih =>
    simp [listIsInfixOf, List.isPrefixOf_iff_prefix, ih, List.infix_cons_iff]

theorem goContains_iff (s sub : String) :
    goContains s sub = true ↔ sub.toList <:+: s.toList := by
  simp [goContains, listIsInfixOf_iff]

theorem errCode_errorResponse (m c : String) :
    errCode (NewErrorResponse m c) = some c := rfl

theorem errCode_successResponse (d : ResponseData) :
    errCode (NewSuccessResponse d) = none := rfl

theorem data_errorResponse (m c : String) :
    (NewErrorResponse m c).data = none := rfl

theorem data_successResponse (d : ResponseData) :
    (NewSuccessResponse d).data = some d := rfl

theorem buildResponse_data_inv (codec : Codec) (stg : Nat → String)
    (p : ResponseBuildParams) (d : ResponseData)
    (h : (buildResponse codec stg p).data = some d) :
    ∃ res, Decompress codec p.bodyBytes (mapGetD p.headers "content-encoding") = .ok res ∧
      d = buildResponseData stg p res := by
  unfold buildResponse at h
  cases hd : Decompress codec p.bodyBytes (mapGetD p.headers "content-encoding") with
  | error e => rw [hd] at h; simp [data_errorResponse] at h
  | ok res =>
    rw [hd] at h
    rw [data_successResponse] at h
    exact ⟨res, rfl, (Option.some_injective _ h).symm⟩

/-! ### Claim C5 -/

/-- C5: `isBinaryContent` returns false exactly when the lower-cased
content type contains one of the nine text-like markers, with the empty
(missing) content type classified as text. -/
theorem C5_isBinaryContent_iff :
    (∀ ct : String, ct ≠ "" →
      (isBinaryContent ct = false ↔
        ∃ t ∈ textTypes, t.toList <:+: (goToLower ct).toList)) ∧
    isBinaryContent "" = false := by
  constructor
  · intro ct hct
    simp [isBinaryContent, hct, goContains_iff, List.any_eq_true]
  · rfl

/-- C5 witness: evaluated at `application/json` (text) and at the empty
content type. -/
theorem C5_isBinaryContent_iff_witness :
    isBinaryContent "" = false ∧
    ("application/json" ≠ "" ∧
      (isBinaryContent "application/json" = false ↔
        ∃ t ∈ textTypes, t.toList <:+: (goToLower "application/json").toList)) :=
  ⟨C5_isBinaryContent_iff.2,
   ⟨by decide, C5_isBinaryContent_iff.1 "application/json" (by decide)⟩⟩

/-! ### Claim C8 -/

/-- C8: for any content-encoding label other than exactly gzip, deflate
or br — the empty label included — `Decompress` succeeds as the identity,
both reported sizes equalling the input length. -/
theorem C8_decompress_passthrough (codec : Codec) (data : Bytes) (encoding : String)
    (h1 : encoding ≠ "gzip") (h2 : encoding ≠ "deflate") (h3 : encoding ≠ "br") :
    Decompress codec data encoding =
      .ok { data := data, compressedSize := data.length,
            decompressedSize := data.length } := by
  simp [Decompress, h1, h2, h3]

/-- C8 witness: the unrecognised label `identity` on a three-byte buffer. -/
theorem C8_decompress_passthrough_witness :
    ("identity" ≠ "gzip" ∧ "identity" ≠ "deflate" ∧ "identity" ≠ "br") ∧
    Decompress sampleCodec [1, 2, 3] "identity" =
      .ok { data := [1, 2, 3], compressedSize := 3, decompressedSize := 3 } :=
  ⟨⟨by decide, by decide, by decide⟩,
   C8_decompress_passthrough sampleCodec [1, 2, 3] "identity"
     (by decide) (by decide) (by decide)⟩

/-! ### Claim C9 -/

/-- C9: when the host is an IP literal (the platform IP parser accepts
it), `ResolveDNS` returns exactly that one address with zero elapsed
milliseconds, and the result does not depend on the resolver — no lookup
is attempted. -/
theorem C9_resolveDNS_ip_literal {α : Type} (parseIP : String → Option α)
    (lookupIP lookupIP2 : String → Except String (List α)) (e1 e2 : Nat)
    (host : String) (ip : α) (h : parseIP host = some ip) :
    ResolveDNS parseIP lookupIP e1 host = .ok { ips := [ip], durationMs := 0 } ∧
    ResolveDNS parseIP lookupIP e1 host = ResolveDNS parseIP lookupIP2 e2 host := by
  simp [ResolveDNS, h]

/-- An IP parser recognising the one literal the witness uses. -/
def literalParseIP : String → Option String :=
  fun h => if h = "127.0.0.1" then some "127.0.0.1" else none

/-- A resolver that fails if consulted. -/
def failLookupIP : String → Except String (List String) :=
  fun _ => .error "lookup attempted"

/-- C9 witness: the literal `127.0.0.1` resolves instantly even when the
resolver would fail. -/
theorem C9_resolveDNS_ip_literal_witness :
    literalParseIP "127.0.0.1" = some "127.0.0.1" ∧
    ResolveDNS literalParseIP failLookupIP 5 "127.0.0.1" =
      .ok { ips := ["127.0.0.1"], durationMs := 0 } ∧
    ResolveDNS literalParseIP failLookupIP 5 "127.0.0.1" =
      ResolveDNS literalParseIP sampleLookupIP 9 "127.0.0.1" :=
  ⟨by decide,
   (C9_resolveDNS_ip_literal literalParseIP failLookupIP sampleLookupIP 5 9
     "127.0.0.1" "127.0.0.1" (by decide)).1,
   (C9_resolveDNS_ip_literal literalParseIP failLookupIP sampleLookupIP 5 9
     "127.0.0.1" "127.0.0.1" (by decide)).2⟩

/-! ### Claim C10 -/

/-- C10: an absolute-looking Location that fails URL parsing only
replaces the context's reported URL; host, port, path and the TLS flag —
and hence the dialled address — are unchanged. -/
theorem C10_unparseable_location_url_only (c : RequestContext) (location : String)
    (hpre : goHasPrefix location "http://" = true ∨
      goHasPrefix location "https://" = true)
    (e : String) (herr : urlParse location = .error e) :
    updateFromRedirect c location = ({ c with url := location }, location) ∧
    (updateFromRedirect c location).1.host = c.host ∧
    (updateFromRedirect c location).1.port = c.port ∧
    (updateFromRedirect c location).1.path = c.path ∧
    (updateFromRedirect c location).1.isHTTPS = c.isHTTPS ∧
    (updateFromRedirect c location).1.addr = c.addr := by
  have hb : (goHasPrefix location "http://" || goHasPrefix location "https://") = true := by
    rcases hpre with h | h <;> simp [h]
  simp [updateFromRedirect, hb, herr, RequestContext.addr]

/-- C10 witness: `http://bad:port/x` (invalid port) against the sample
context. -/
theorem C10_unparseable_location_url_only_witness :
    goHasPrefix "http://bad:port/x" "http://" = true ∧
    urlParse "http://bad:port/x" = .error "invalid port after host" ∧
    updateFromRedirect ctxA "http://bad:port/x" =
      ({ ctxA with url := "http://bad:port/x" }, "http://bad:port/x") ∧
    (updateFromRedirect ctxA "http://bad:port/x").1.addr = ctxA.addr :=
  ⟨by decide, by decide,
   (C10_unparseable_location_url_only ctxA "http://bad:port/x"
     (Or.inl (by decide)) "invalid port after host" (by decide)).1,
   (C10_unparseable_location_url_only ctxA "http://bad:port/x"
     (Or.inl (by decide)) "invalid port after host" (by decide)).2.2.2.2.2⟩

/-! ### Claim C7 -/

/-- C7: a success response is flagged redirected exactly when the
redirect chain is non-empty, and an empty chain is emitted as null rather
than an empty list. -/
theorem C7_redirected_iff_chain_nonempty (codec : Codec) (stg : Nat → String)
    (p : ResponseBuildParams) (d : ResponseData)
    (h : (buildResponse codec stg p).data = some d) :
    (d.redirected = true ↔ p.redirectChain ≠ []) ∧
    (p.redirectChain = [] → d.redirectChain = none) ∧
    (p.redirectChain ≠ [] → d.redirectChain = some p.redirectChain) := by
  obtain ⟨res, hres, rfl⟩ := buildResponse_data_inv codec stg p d h
  refine ⟨?_, ?_, ?_⟩
  · simp [buildResponseData, List.length_pos]
  · intro hnil
    simp [buildResponseData, hnil]
  · intro hne
    simp [buildResponseData, List.length_pos.mpr hne]

/-- A placeholder record (only used as a fallback for `Option.getD` on
values proved to be `some`). -/
def emptyResponseData : ResponseData where
  status := 0
  statusText := ""
  headers := []
  requestHeaders := []
  body := []
  bodyBase64 := none
  isBinary := false
  size := 0
  url := ""
  redirected := false
  redirectChain := none
  sizeBreakdown := ⟨0, 0, 0, none, none, none, none⟩
  serverIP := none
  protocol := ""
  fromCache := false
  resourceType := ""
  requestBodySize := none
  connection := none
  serverSoftware := none
  hostname := none
  port := none
  resolvedIPs := []

/-- Builder parameters of a plain 200 text response with no redirects. -/
def sampleBuildParams : ResponseBuildParams where
  status := 200
  headers := [("content-type", "text/plain")]
  bodyBytes := [104, 105]
  finalURL := "http://example.com/"
  redirectChain := []
  httpVersion := "HTTP/1.1"
  serverIP := "93.184.216.34"
  requestHeaders := []
  requestBodySize := none
  hostname := "example.com"
  port := "80"
  resolvedIPs := ["93.184.216.34"]

/-- The record built from `sampleBuildParams`. -/
def sampleBuiltData : ResponseData :=
  (buildResponse sampleCodec sampleStatusText sampleBuildParams).data.getD
    emptyResponseData

/-- C7 witness: the sample 200 response has an empty chain, hence a null
redirect chain and a false redirected flag. -/
theorem C7_redirected_iff_chain_nonempty_witness :
    ((buildResponse sampleCodec sampleStatusText sampleBuildParams).data =
      some sampleBuiltData) ∧
    (sampleBuiltData.redirected = true ↔ sampleBuildParams.redirectChain ≠ []) ∧
    (sampleBuildParams.redirectChain = [] → sampleBuiltData.redirectChain = none) :=
  ⟨by decide,
   (C7_redirected_iff_chain_nonempty sampleCodec sampleStatusText
     sampleBuildParams sampleBuiltData (by decide)).1,
   (C7_redirected_iff_chain_nonempty sampleCodec sampleStatusText
     sampleBuildParams sampleBuiltData (by decide)).2.1⟩

/-! ### Claim C6 -/

/-- C6: exactly one of body and bodyBase64 carries the payload and the
binary flag agrees: a binary response holds the base64 of the
decompressed bytes with an empty body, a text response holds the
decompressed bytes with a null bodyBase64. -/
theorem C6_body_xor_base64 (codec : Codec) (stg : Nat → String)
    (p : ResponseBuildParams) (d : ResponseData) (res : DecompressResult)
    (hres : Decompress codec p.bodyBytes (mapGetD p.headers "content-encoding") = .ok res)
    (h : (buildResponse codec stg p).data = some d) :
    d.isBinary = isBinaryContent (mapGetD p.headers "content-type") ∧
    (d.isBinary = true → d.bodyBase64 = some (base64Encode res.data) ∧ d.body = []) ∧
    (d.isBinary = false → d.body = res.data ∧ d.bodyBase64 = none) := by
  obtain ⟨res2, hres2, rfl⟩ := buildResponse_data_inv codec stg p d h
  obtain rfl : res = res2 := by
    have := hres.symm.trans hres2
    injection this
  refine ⟨?_, ?_, ?_⟩
  · simp [buildResponseData]
  · intro hb
    simp only [buildResponseData] at hb ⊢
    simp_all
  · intro hb
    simp only [buildResponseData] at hb ⊢
    simp_all

/-- Builder parameters of a 200 PNG response (binary discrimination). -/
def pngBuildParams : ResponseBuildParams where
  status := 200
  headers := [("content-type", "image/png")]
  bodyBytes := [0x89, 0x50, 0x4E, 0x47, 0x0D, 0x0A, 0x1A, 0x0A]
  finalURL := "http://example.com/logo.png"
  redirectChain := []
  httpVersion := "HTTP/1.1"
  serverIP := "93.184.216.34"
  requestHeaders := []
  requestBodySize := none
  hostname := "example.com"
  port := "80"
  resolvedIPs := ["93.184.216.34"]

/-- The record built from `pngBuildParams`. -/
def pngBuiltData : ResponseData :=
  (buildResponse sampleCodec sampleStatusText pngBuildParams).data.getD
    emptyResponseData

/-- C6 witness: the PNG response is binary, carries the base64 payload
and an empty body. -/
theorem C6_body_xor_base64_witness :
    (Decompress sampleCodec pngBuildParams.bodyBytes
      (mapGetD pngBuildParams.headers "content-encoding") =
        .ok ⟨[0x89, 0x50, 0x4E, 0x47, 0x0D, 0x0A, 0x1A, 0x0A], 8, 8⟩) ∧
    ((buildResponse sampleCodec sampleStatusText pngBuildParams).data =
      some pngBuiltData) ∧
    pngBuiltData.isBinary = true ∧
    (pngBuiltData.bodyBase64 =
      some (base64Encode [0x89, 0x50, 0x4E, 0x47, 0x0D, 0x0A, 0x1A, 0x0A]) ∧
     pngBuiltData.body = []) :=
  ⟨by decide, by decide, by decide,
   (C6_body_xor_base64 sampleCodec sampleStatusText pngBuildParams pngBuiltData
     ⟨[0x89, 0x50, 0x4E, 0x47, 0x0D, 0x0A, 0x1A, 0x0A], 8, 8⟩
     (by decide) (by decide)).2.1 (by decide)⟩

/-! ### Claim C3 -/

/-- Builder parameters of a gzip response whose decompressed body is
empty: the raw body is the gzip encoding of no bytes. -/
def gzipEmptyParams : ResponseBuildParams where
  status := 200
  headers := [("content-type", "text/plain"), ("content-encoding", "gzip")]
  bodyBytes := gzipEmptyBytes
  finalURL := "http://example.com/empty"
  redirectChain := []
  httpVersion := "HTTP/1.1"
  serverIP := "93.184.216.34"
  requestHeaders := []
  requestBodySize := none
  hostname := "example.com"
  port := "80"
  resolvedIPs := ["93.184.216.34"]

/-- C3 counterexample: a success response with content-encoding `gzip`
whose decompressed body is empty carries none of the four compression
fields, contradicting the claim that they are present for every gzip
response including the empty-body case. -/
theorem C3_counterexample_empty_gzip :
    mapGetD gzipEmptyParams.headers "content-encoding" = "gzip" ∧
    (buildResponse sampleCodec sampleStatusText gzipEmptyParams).success = true ∧
    (buildResponse sampleCodec sampleStatusText gzipEmptyParams).data.map
      (fun d => (d.sizeBreakdown.compressed, d.sizeBreakdown.uncompressed,
        d.sizeBreakdown.encoding, d.sizeBreakdown.compressionRatio)) =
      some (none, none, none, none) := by decide

/-- C3 amended: the four compression fields are present iff the
content-encoding is non-empty AND the decompressed body is non-empty;
when present, the ratio equals compressed over uncompressed (exact
rational model of the float64 quotient). -/
theorem C3_compression_fields (codec : Codec) (stg : Nat → String)
    (p : ResponseBuildParams) (d : ResponseData) (res : DecompressResult)
    (hres : Decompress codec p.bodyBytes (mapGetD p.headers "content-encoding") = .ok res)
    (h : (buildResponse codec stg p).data = some d) :
    (mapGetD p.headers "content-encoding" ≠ "" ∧ res.data.length > 0 →
      d.sizeBreakdown.compressed = some p.bodyBytes.length ∧
      d.sizeBreakdown.uncompressed = some res.data.length ∧
      d.sizeBreakdown.encoding = some (mapGetD p.headers "content-encoding") ∧
      d.sizeBreakdown.compressionRatio =
        some ((p.bodyBytes.length : ℚ) / (res.data.length : ℚ))) ∧
    (mapGetD p.headers "content-encoding" = "" ∨ res.data.length = 0 →
      d.sizeBreakdown.compressed = none ∧
      d.sizeBreakdown.uncompressed = none ∧
      d.sizeBreakdown.encoding = none ∧
      d.sizeBreakdown.compressionRatio = none) := by
  obtain ⟨res2, hres2, rfl⟩ := buildResponse_data_inv codec stg p d h
  obtain rfl : res = res2 := by
    have := hres.symm.trans hres2
    injection this
  constructor
  · intro hcond
    simp [buildResponseData, hcond.1, hcond.2]
  · intro hcond
    rcases hcond with henc | hlen
    · simp [buildResponseData, henc]
    · simp [buildResponseData, hlen]

/-- Builder parameters of a gzip response decompressing to `hello`. -/
def gzipHelloParams : ResponseBuildParams where
  status := 200
  headers := [("content-type", "text/plain"), ("content-encoding", "gzip")]
  bodyBytes := gzipHelloBytes
  finalURL := "http://example.com/hello"
  redirectChain := []
  httpVersion := "HTTP/1.1"
  serverIP := "93.184.216.34"
  requestHeaders := []
  requestBodySize := none
  hostname := "example.com"
  port := "80"
  resolvedIPs := ["93.184.216.34"]

/-- The record built from `gzipHelloParams`. -/
def gzipHelloData : ResponseData :=
  (buildResponse sampleCodec sampleStatusText gzipHelloParams).data.getD
    emptyResponseData

/-- C3 witness: the gzip `hello` response (25 raw bytes, 5 decompressed)
carries all four fields with ratio 25/5. -/
theorem C3_compression_fields_witness :
    (mapGetD gzipHelloParams.headers "content-encoding" ≠ "" ∧
      ([104, 101, 108, 108, 111] : Bytes).length > 0) ∧
    (gzipHelloData.sizeBreakdown.compressed = some gzipHelloParams.bodyBytes.length ∧
     gzipHelloData.sizeBreakdown.uncompressed =
       some ([104, 101, 108, 108, 111] : Bytes).length ∧
     gzipHelloData.sizeBreakdown.encoding =
       some (mapGetD gzipHelloParams.headers "content-encoding") ∧
     gzipHelloData.sizeBreakdown.compressionRatio =
       some ((gzipHelloParams.bodyBytes.length : ℚ) /
         (([104, 101, 108, 108, 111] : Bytes).length : ℚ))) :=
  ⟨⟨by decide, by decide⟩,
   (C3_compression_fields sampleCodec sampleStatusText gzipHelloParams
     gzipHelloData ⟨[104, 101, 108, 108, 111], 25, 5⟩
     (by decide) rfl).1 ⟨by decide, by decide⟩⟩

/-! ### Claim C4 -/

/-- The canonical absolute URL of §4.6 of the specification: scheme,
host — with the port omitted exactly when it equals the scheme default —
then path. -/
def canonicalAbsoluteURL (c : RequestContext) : String :=
  (if c.isHTTPS then "https" else "http") ++ "://" ++
    (if c.port = (if c.isHTTPS then "443" else "80") then c.host
     else joinHostPort c.host c.port) ++ c.path

/-- C4: `updateFromRedirect` resolves a Location by exactly the
documented case split — an absolute `http(s)://` value (that parses)
replaces scheme, host, defaulted port and defaulted path; a root-relative
value replaces only the path; any other value is prefixed with `/` and
replaces only the path; and (whenever an absolute value parses) the
rebuilt URL is the canonical absolute URL of the updated context, with
the port omitted exactly when it equals the scheme default. -/
theorem C4_updateFromRedirect_cases (c : RequestContext) (location : String) :
    (∀ parsed : GoURL,
      goHasPrefix location "http://" = true ∨ goHasPrefix location "https://" = true →
      urlParse location = .ok parsed →
      (updateFromRedirect c location).1.isHTTPS = decide (parsed.scheme = "https") ∧
      (updateFromRedirect c location).1.host = parsed.hostname ∧
      (updateFromRedirect c location).1.port =
        (if parsed.portOf = "" then (if parsed.scheme = "https" then "443" else "80")
         else parsed.portOf) ∧
      (updateFromRedirect c location).1.path =
        (if parsed.requestURI = "" then "/" else parsed.requestURI)) ∧
    (goHasPrefix location "http://" = false → goHasPrefix location "https://" = false →
      goHasPrefix location "/" = true →
      (updateFromRedirect c location).1.host = c.host ∧
      (updateFromRedirect c location).1.port = c.port ∧
      (updateFromRedirect c location).1.isHTTPS = c.isHTTPS ∧
      (updateFromRedirect c location).1.path = location) ∧
    (goHasPrefix location "http://" = false → goHasPrefix location "https://" = false →
      goHasPrefix location "/" = false →
      (updateFromRedirect c location).1.host = c.host ∧
      (updateFromRedirect c location).1.port = c.port ∧
      (updateFromRedirect c location).1.isHTTPS = c.isHTTPS ∧
      (updateFromRedirect c location).1.path = "/" ++ location) ∧
    ((goHasPrefix location "http://" = false ∧ goHasPrefix location "https://" = false) ∨
        (∃ parsed, urlParse location = .ok parsed) →
      (updateFromRedirect c location).2 =
        canonicalAbsoluteURL (updateFromRedirect c location).1 ∧
      (updateFromRedirect c location).1.url = (updateFromRedirect c location).2) := by
  refine ⟨?_, ?_, ?_, ?_⟩
  · intro parsed hpre hok
    have hb : (goHasPrefix location "http://" || goHasPrefix location "https://") = true := by
      rcases hpre with h | h <;> simp [h]
    simp [updateFromRedirect, hb, hok]
  · intro h1 h2 h3
    simp [updateFromRedirect, h1, h2, h3]
  · intro h1 h2 h3
    simp [updateFromRedirect, h1, h2, h3]
  · intro hcase
    rcases hcase with ⟨h1, h2⟩ | ⟨parsed, hok⟩
    · simp [updateFromRedirect, h1, h2, canonicalAbsoluteURL, ite_not]
    · by_cases hb : (goHasPrefix location "http://" || goHasPrefix location "https://") = true
      · simp only [updateFromRedirect, hb, hok, canonicalAbsoluteURL]
        by_cases hp0 : parsed.portOf = ""
        · simp [hp0]
        · by_cases hpd : parsed.portOf = (if parsed.scheme = "https" then "443" else "80")
          · simp [hp0, hpd]
          · simp [hp0, hpd]
      · have h1 : goHasPrefix location "http://" = false := by
          revert hb
          cases goHasPrefix location "http://" <;> simp
        have h2 : goHasPrefix location "https://" = false := by
          revert hb
          cases goHasPrefix location "https://" <;> simp [Bool.or_comm]
        simp [updateFromRedirect, h1, h2, canonicalAbsoluteURL, ite_not]

/-- The parse of `https://b.test:444/c`. -/
def parsedB444 : GoURL where
  scheme := "https"
  host := "b.test:444"
  path := "/c"

/-- C4 witness: the three Location shapes evaluated on the sample
contexts — an absolute URL with an explicit non-default port, a
root-relative path, and a bare relative value — plus the canonical
rebuilt URL. -/
theorem C4_updateFromRedirect_cases_witness :
    (goHasPrefix "https://b.test:444/c" "https://" = true ∧
      urlParse "https://b.test:444/c" = .ok parsedB444) ∧
    ((updateFromRedirect ctxA "https://b.test:444/c").1.isHTTPS =
        decide (parsedB444.scheme = "https") ∧
      (updateFromRedirect ctxA "https://b.test:444/c").1.host = parsedB444.hostname ∧
      (updateFromRedirect ctxA "https://b.test:444/c").1.port =
        (if parsedB444.portOf = ""
         then (if parsedB444.scheme = "https" then "443" else "80")
         else parsedB444.portOf) ∧
      (updateFromRedirect ctxA "https://b.test:444/c").1.path =
        (if parsedB444.requestURI = "" then "/" else parsedB444.requestURI)) ∧
    ((updateFromRedirect ctxB "/y").1.host = ctxB.host ∧
      (updateFromRedirect ctxB "/y").1.port = ctxB.port ∧
      (updateFromRedirect ctxB "/y").1.isHTTPS = ctxB.isHTTPS ∧
      (updateFromRedirect ctxB "/y").1.path = "/y") ∧
    ((updateFromRedirect ctxB "next").1.host = ctxB.host ∧
      (updateFromRedirect ctxB "next").1.port = ctxB.port ∧
      (updateFromRedirect ctxB "next").1.isHTTPS = ctxB.isHTTPS ∧
      (updateFromRedirect ctxB "next").1.path = "/" ++ "next") ∧
    ((updateFromRedirect ctxA "https://b.test:444/c").2 =
        canonicalAbsoluteURL (updateFromRedirect ctxA "https://b.test:444/c").1 ∧
      (updateFromRedirect ctxA "https://b.test:444/c").1.url =
        (updateFromRedirect ctxA "https://b.test:444/c").2) :=
  ⟨⟨by decide, by decide⟩,
   (C4_updateFromRedirect_cases ctxA "https://b.test:444/c").1 parsedB444
     (Or.inr (by decide)) (by decide),
   (C4_updateFromRedirect_cases ctxB "/y").2.1 (by decide) (by decide) (by decide),
   (C4_updateFromRedirect_cases ctxB "next").2.2.1 (by decide) (by decide) (by decide),
   (C4_updateFromRedirect_cases ctxA "https://b.test:444/c").2.2.2
     (Or.inr ⟨parsedB444, by decide⟩)⟩

/-! ### Claim C1 -/

theorem newRequestContext_error_iff (raw : String) :
    (∃ e, newRequestContext raw = .error e) ↔
      (∃ e, urlParse raw = .error e) ∨
        (∃ u, urlParse raw = .ok u ∧ u.host = "") := by
  cases hp : urlParse raw with
  | error e => simp [newRequestContext, hp]
  | ok u =>
    by_cases hh : u.host = ""
    · simp [newRequestContext, hp, hh]
    · simp [newRequestContext, hp, hh]

theorem buildResponse_errCode (codec : Codec) (stg : Nat → String)
    (p : ResponseBuildParams) :
    errCode (buildResponse codec stg p) = none ∨
      errCode (buildResponse codec stg p) = some "DECOMPRESSION_ERROR" := by
  unfold buildResponse
  cases Decompress codec p.bodyBytes (mapGetD p.headers "content-encoding") <;>
    simp [errCode, NewErrorResponse, NewSuccessResponse]

theorem execLoop_errCode_ne_invalid (env : ExecEnv) :
    ∀ (net : List NetOutcome) (ctx : RequestContext) (chain : List RedirectHop),
      errCode (execLoop env ctx chain net) ≠ some "INVALID_URL" := by
  intro net
  induction net with
  | nil => intro ctx chain; simp [execLoop, errCode, NewErrorResponse]
  | cons outcome rest ih =>
    intro ctx chain
    simp only [execLoop]
    cases hp : urlParse ctx.url with
    | error e => simp [errCode, NewErrorResponse]
    | ok u =>
      cases outcome with
      | doError m => simp [errCode, NewErrorResponse]
      | bodyError m => simp [errCode, NewErrorResponse]
      | success r =>
        simp only []
        by_cases hred : 300 ≤ r.statusCode ∧ r.statusCode < 400 ∧
            headerGetFirst r.headers "Location" ≠ ""
        · rw [if_pos hred]
          by_cases hmax : (chain ++
              [({ url := ctx.url, status := r.statusCode,
                  duration := r.hopDuration, headers := lowerHeaders r.headers,
                  message := some ("Redirect to: " ++
                    (updateFromRedirect ctx (headerGetFirst r.headers "Location")).2) } :
                 RedirectHop)]).length ≥ MaxRedirects
          · rw [if_pos hmax]; simp [errCode, NewErrorResponse]
          · rw [if_neg hmax]; exact ih _ _
        · rw [if_neg hred]
          rcases buildResponse_errCode env.codec env.statusTextGet
            { status := r.statusCode, headers := lowerHeaders r.headers,
              bodyBytes := r.body, finalURL := ctx.url, redirectChain := chain,
              httpVersion := r.proto, serverIP := env.serverIP,
              requestHeaders := env.requestHeaders,
              requestBodySize := env.requestBodySize, hostname := ctx.host,
              port := ctx.port, resolvedIPs := env.resolvedIPs } with hb | hb <;>
            simp [hb]

/-- C1 counterexample: `ftp://example.com/` has a non-empty host and an
unsupported scheme, yet the context is constructed and the execution
proceeds to a success — the engine never rejects a scheme. -/
theorem C1_counterexample_ftp_scheme :
    (urlParse "ftp://example.com/").map GoURL.scheme = .ok "ftp" ∧
    (urlParse "ftp://example.com/").map GoURL.host = .ok "example.com" ∧
    (newRequestContext "ftp://example.com/").isOk = true ∧
    (ExecuteRequest sampleCodec sampleStatusText noneParseIP sampleLookupIP 7
      ftpRequest [NetOutcome.success ok200]).success = true ∧
    errCode (ExecuteRequest sampleCodec sampleStatusText noneParseIP sampleLookupIP 7
      ftpRequest [NetOutcome.success ok200]) = none := by decide

/-- C1 (amended): context construction — and hence the whole execution —
fails with INVALID_URL exactly when the URL does not parse or parses
with an empty host; an unsupported scheme is not rejected. -/
theorem C1_invalid_url_iff (codec : Codec) (stg : Nat → String)
    (parseIP : String → Option String)
    (lookupIP : String → Except String (List String)) (el : Nat)
    (req : ProxyRequest) (net : List NetOutcome) :
    ((∃ e, newRequestContext req.url = .error e) ↔
      (∃ e, urlParse req.url = .error e) ∨
        (∃ u, urlParse req.url = .ok u ∧ u.host = "")) ∧
    (errCode (ExecuteRequest codec stg parseIP lookupIP el req net) =
        some "INVALID_URL" ↔
      (∃ e, urlParse req.url = .error e) ∨
        (∃ u, urlParse req.url = .ok u ∧ u.host = "")) := by
  refine ⟨newRequestContext_error_iff req.url, ?_⟩
  rw [← newRequestContext_error_iff req.url]
  unfold ExecuteRequest
  cases hc : newRequestContext req.url with
  | error e => simp [errCode, NewErrorResponse]
  | ok ctx =>
    dsimp only
    cases hd : ResolveDNS parseIP lookupIP el ctx.host with
    | error e => simp [errCode, NewErrorResponse]
    | ok dnsResult =>
      dsimp only
      exact iff_of_false (execLoop_errCode_ne_invalid _ net ctx []) (by simp)

/-! ### Claim C2 -/

theorem execLoop_chain_bound (env : ExecEnv) :
    ∀ (net : List NetOutcome) (ctx : RequestContext) (chain : List RedirectHop)
      (d : ResponseData) (ch : List RedirectHop),
      chain.length ≤ 19 →
      (execLoop env ctx chain net).data = some d →
      d.redirectChain = some ch → ch.length ≤ 19 := by
  intro net
  induction net with
  | nil =>
    intro ctx chain d ch hlen hd hch
    simp [execLoop, NewErrorResponse] at hd
  | cons outcome rest ih =>
    intro ctx chain d ch hlen hd hch
    simp only [execLoop] at hd
    split at hd
    · simp [NewErrorResponse] at hd
    · split at hd
      · simp [NewErrorResponse] at hd
      · simp [NewErrorResponse] at hd
      · split at hd
        · split at hd
          · simp [NewErrorResponse] at hd
          · rename_i hmax
            refine ih _ _ d ch ?_ hd hch
            simp only [List.length_append, List.length_cons, List.length_nil,
              MaxRedirects, ge_iff_le, not_le] at hmax ⊢
            omega
        · obtain ⟨res, hres, rfl⟩ := buildResponse_data_inv _ _ _ _ hd
          simp only [buildResponseData] at hch
          split at hch
          · simp only [Option.some.injEq] at hch
            subst hch
            exact hlen
          · simp at hch

/-- C2 counterexample: an execution that meets twenty redirect responses
followed by a terminal 200 does not succeed with twenty recorded hops —
recording the twentieth hop itself already aborts with
TOO_MANY_REDIRECTS, so no twenty-first exchange is ever attempted. -/
theorem C2_counterexample_twenty_hops :
    ExecuteRequest sampleCodec sampleStatusText noneParseIP sampleLookupIP 7
      sampleRequest (List.replicate 20 (NetOutcome.success redirect302) ++
        [NetOutcome.success ok200bare]) =
      NewErrorResponse "Too many redirects" "TOO_MANY_REDIRECTS" := by decide

/-- C2 (amended): success redirect chains have length at most 19, and
the loop iteration that appends the twentieth hop returns
TOO_MANY_REDIRECTS at once, whatever network responses would follow. -/
theorem C2_redirect_cap :
    (∀ (codec : Codec) (stg : Nat → String) (parseIP : String → Option String)
        (lookupIP : String → Except String (List String)) (el : Nat)
        (req : ProxyRequest) (net : List NetOutcome) (d : ResponseData)
        (ch : List RedirectHop),
      (ExecuteRequest codec stg parseIP lookupIP el req net).data = some d →
      d.redirectChain = some ch → ch.length ≤ 19) ∧
    (∀ (env : ExecEnv) (ctx : RequestContext) (chain : List RedirectHop)
        (u : GoURL) (r : NetResponse) (rest : List NetOutcome),
      urlParse ctx.url = .ok u → chain.length = 19 →
      300 ≤ r.statusCode → r.statusCode < 400 →
      headerGetFirst r.headers "Location" ≠ "" →
      execLoop env ctx chain (NetOutcome.success r :: rest) =
        NewErrorResponse "Too many redirects" "TOO_MANY_REDIRECTS") := by
  constructor
  · intro codec stg parseIP lookupIP el req net d ch hd hch
    unfold ExecuteRequest at hd
    cases hc : newRequestContext req.url with
    | error e => rw [hc] at hd; simp [NewErrorResponse] at hd
    | ok ctx =>
      rw [hc] at hd
      dsimp only at hd
      cases hdns : ResolveDNS parseIP lookupIP el ctx.host with
      | error e => rw [hdns] at hd; simp [NewErrorResponse] at hd
      | ok dnsResult =>
        rw [hdns] at hd
        dsimp only at hd
        exact execLoop_chain_bound _ net ctx [] d ch (by simp) hd hch
  · intro env ctx chain u r rest hu hlen h3 h4 h5
    simp only [execLoop]
    rw [hu]
    dsimp only
    rw [if_pos ⟨h3, h4, h5⟩]
    split
    · rfl
    · rename_i hmax
      exact absurd (by simp [List.length_append, hlen, MaxRedirects]) hmax

/-- The per-execution environment of the sample executions. -/
def sampleEnv : ExecEnv where
  codec := sampleCodec
  statusTextGet := sampleStatusText
  requestHeaders := []
  requestBodySize := none
  serverIP := "93.184.216.34"
  resolvedIPs := ["93.184.216.34"]

/-- A recorded hop of the `/l` redirect cycle. -/
def sampleHop : RedirectHop where
  url := "http://e.co/l"
  status := 302
  duration := 3
  headers := [("location", "/l")]
  message := some "Redirect to: http://e.co/l"

/-- The parse of `http://a.test/` (the URL of `ctxA`). -/
def parsedA : GoURL where
  scheme := "http"
  host := "a.test"
  path := "/"

/-- The success data of the one-redirect sample execution. -/
def d1 : ResponseData :=
  (ExecuteRequest sampleCodec sampleStatusText noneParseIP sampleLookupIP 7
    sampleRequest [NetOutcome.success redirect302,
      NetOutcome.success ok200]).data.getD emptyResponseData

/-- The redirect chain of `d1`. -/
def ch1 : List RedirectHop := d1.redirectChain.getD []

/-- C2 witness: a redirected success execution stays within the bound,
and a nineteen-hop context meeting one more redirect response aborts
immediately. -/
theorem C2_redirect_cap_witness :
    ((ExecuteRequest sampleCodec sampleStatusText noneParseIP sampleLookupIP 7
        sampleRequest [NetOutcome.success redirect302,
          NetOutcome.success ok200]).data = some d1 ∧
      d1.redirectChain = some ch1 ∧ ch1.length ≤ 19) ∧
    (urlParse ctxA.url = .ok parsedA ∧
      (List.replicate 19 sampleHop).length = 19 ∧
      302 ≤ 400 ∧ headerGetFirst redirect302.headers "Location" = "/l" ∧
      execLoop sampleEnv ctxA (List.replicate 19 sampleHop)
        [NetOutcome.success redirect302] =
        NewErrorResponse "Too many redirects" "TOO_MANY_REDIRECTS") :=
  ⟨⟨rfl, rfl,
    C2_redirect_cap.1 sampleCodec sampleStatusText noneParseIP sampleLookupIP 7
      sampleRequest [NetOutcome.success redirect302, NetOutcome.success ok200]
      d1 ch1 rfl rfl⟩,
   ⟨by decide, by decide, by decide, by decide,
    C2_redirect_cap.2 sampleEnv ctxA (List.replicate 19 sampleHop) parsedA
      redirect302 [] (by decide) (by decide) (by decide) (by decide) (by decide)⟩⟩
